import Mathlib

/-!
Shallow embedding of the request-validation and execution-orchestration layer
of `natcap_invest_docker_flask/invest_http_flask.py`.

Modelling conventions:
* JSON values are modelled by the inductive `Json` below; JSON numbers are
  modelled as integers (every numeric value exercised by the claims under
  study is an integer).
* Python exceptions are modelled by `PyErr`; fallible code returns
  `Except PyErr _`.  `InvalidUsage` (the application's structured error class)
  is the `PyErr.invalidUsage` constructor carrying its message and status code
  (its payload is `None` at every raise site in the file, so `to_dict()`
  reduces to the message); `KeyError`, `TypeError`, `AttributeError` and
  `IndexError` model the built-in Python exceptions that dynamic subscripting,
  attribute access and comparisons can raise.
* `geojson.loads(dumps(x))` is modelled by `geojson_loads`: the library parses
  with `object_hook=GeoJSON.to_instance`, which coerces, bottom-up, every dict
  whose `"type"` names an attribute of `geojson.factory` into a GeoJSON
  instance.  That coercion can raise — notably `ValueError` from the strict
  re-coercion of a `"type": "Feature"` member's geometry and from
  `Geometry.clean_coordinates` — and `assert_geojson`'s `except ValueError`
  turns exactly those into the `'{key} is not valid geojson: {e}'`
  `InvalidUsage`.  The texts interpolated into the library's `ValueError`
  messages (`repr` of the offending value, the chained exception) are elided
  in the model; the surrounding message text is kept.
* Exact rational / integer arithmetic stands in for Python floats; at every
  concrete input used below the float computation and the exact one agree.
* The external model runner (`self.model_runner`) and the function
  `reveg_alg.plot.generate_chart` are collaborators whose sources are not part
  of the package under study; where a claim depends on them they are modelled
  from the spec, and the doc comment of the definition says so.
-/

/-- Model of a JSON value (Python dict / list / str / int / bool / None). -/
inductive Json where
  | null : Json
  | bool (b : Bool) : Json
  | num (n : Int) : Json
  | str (s : String) : Json
  | arr (xs : List Json) : Json
  | obj (kvs : List (String × Json)) : Json

/-- Model of the Python exceptions that can escape the code under study.
`notModelled` is not a Python exception: it marks the few payloads whose
behaviour under the geojson library is outside this model's fidelity (see
`LoadErr.notModelled`); no theorem below concludes anything about them. -/
inductive PyErr where
  | invalidUsage (message : String) (statusCode : Nat) : PyErr
  | keyError (key : String) : PyErr
  | typeError : PyErr
  | attributeError : PyErr
  | indexError : PyErr
  | notModelled : PyErr
deriving DecidableEq, Repr

/-- Python subscripting `x[key]` with a string key: succeeds on a dict that has
the key, raises `KeyError` on a dict without it, `TypeError` on non-dicts. -/
def Json.subscript : Json → String → Except PyErr Json
  | .obj kvs, k =>
    match kvs.lookup k with
    | some v => .ok v
    | none => .error (.keyError k)
  | _, _ => .error .typeError

/-- Python `len(x)`: defined on lists, strings and dicts, `TypeError` else. -/
def Json.pyLen : Json → Except PyErr Nat
  | .arr xs => .ok xs.length
  | .str s => .ok s.length
  | .obj kvs => .ok kvs.length
  | _ => .error .typeError

/-- Python subscripting `x[i]` with a (non-negative) integer index. -/
def Json.index : Json → Nat → Except PyErr Json
  | .arr xs, i =>
    match xs.get? i with
    | some v => .ok v
    | none => .error .indexError
  | .str s, i =>
    match s.data.get? i with
    | some c => .ok (.str (String.mk [c]))
    | none => .error .indexError
  | .obj _, i => .error (.keyError (toString i))
  | _, _ => .error .typeError

/-- Python `s.upper()` on a string: upper-cases each character (the strings
compared in this file are ASCII, where `Char.toUpper` agrees with Python).
Defined by structural recursion over the character list so that it evaluates
inside the kernel. -/
def pyUpper (s : String) : String := String.mk (s.data.map Char.toUpper)

/-- Python `x.upper()`: succeeds on strings, `AttributeError` otherwise. -/
def asStr : Json → Except PyErr String
  | .str s => .ok s
  | _ => .error .attributeError

/-- A JSON value used in an integer comparison: `TypeError` on non-numbers. -/
def asInt : Json → Except PyErr Int
  | .num n => .ok n
  | _ => .error .typeError

/-- `MAX_YEARS_TO_SIMULATE = 30` (invest_http_flask.py line 21). -/
def MAX_YEARS_TO_SIMULATE : Int := 30

/-- `crop_type_key = 'crop_type'` (line 22). -/
def crop_type_key : String := "crop_type"

/-- Ceiling of the integer fraction `a / b`, via (Euclidean) floor division. -/
def ceilDivInt (a : Int) (b : Nat) : Int := -((-a) / (b : Int))

/-- The arithmetic of `estimate_runtime` (lines 79–87), as a pure function of
the years parameter and the machine's CPU count:
`diluted_cpu_effect = 1 + cpu_count/10`;
`raw_guess = 4 * math.ceil(years / diluted_cpu_effect)`;
`result = int(max(raw_guess, 15))`.
Since `diluted_cpu_effect = (10 + cpu_count)/10`, the exact value of
`math.ceil(years / diluted_cpu_effect)` is `⌈10*years / (10 + cpu_count)⌉`,
written with `ceilDivInt`. -/
def estimate_runtime_calc (years : Int) (cpu_count : Nat) : Int :=
  let raw_guess : Int := 4 * ceilDivInt (10 * years) (10 + cpu_count)
  max raw_guess 15

/-- The estimator formula as the spec words it:
`max(15, ceil(4 * years / (1 + cpuCount/10)))` — the multiplication by 4 is
inside the ceiling.  Stated over `ℚ` exactly as written; present only to be
compared against `estimate_runtime_calc`. -/
def estimate_runtime_spec_formula (years : Int) (cpu_count : Nat) : Int :=
  max 15 ⌈(4 * years : ℚ) / (1 + (cpu_count : ℚ) / 10)⌉

/-- Error message of `estimate_runtime` (lines 82–83). -/
def estimate_runtime_err_msg : String :=
  "The 'years' param is required and must be an integer >= 1"

/-- `estimate_runtime` (lines 76–88).  `yearsArg` models
`request.args.get('years', type=int)`: `none` when the parameter is absent or
not parseable as an integer.  `if not years:` is true for `None` and for `0`.
The returned integer is the `seconds` field of the JSON response. -/
def estimate_runtime (cpu_count : Nat) (yearsArg : Option Int) : Except PyErr Int :=
  match yearsArg with
  | none => .error (.invalidUsage estimate_runtime_err_msg 400)
  | some years =>
    if years = 0 then .error (.invalidUsage estimate_runtime_err_msg 400)
    else .ok (estimate_runtime_calc years cpu_count)

/-- Error message of `reveg_curve_png` (lines 95–96): the Python code builds it
as `"The 'years' param, if supplied, must be " + "an integer >= 1 && <= %d" % 50`. -/
def reveg_curve_err_msg : String :=
  "The 'years' param, if supplied, must be " ++ "an integer >= 1 && <= 50"

/-- `reveg_curve_png` (lines 91–98), parameterized by the collaborator
`reveg_alg.plot.generate_chart`; the returned list models the PNG bytes of the
response body.  `yearsArg` models
`request.args.get('years', default=15, type=int)`: `none` when the parameter
is absent (or not parseable, in which case Flask likewise falls back to the
default), so `years = yearsArg.getD 15`.
`if not years or years > max_years_limit:` is true exactly when `years = 0` or
`years > 50`. -/
def reveg_curve_png (generate_chart : Int → List Nat) (yearsArg : Option Int) :
    Except PyErr (List Nat) :=
  let years := yearsArg.getD 15
  if years = 0 ∨ years > 50 then .error (.invalidUsage reveg_curve_err_msg 400)
  else .ok (generate_chart years)

/-- Modelled from the spec: `reveg_alg.plot.generate_chart` is absent from the
sources under study; the spec says the endpoint's success response is
non-empty PNG image bytes, so the model returns the PNG signature bytes. -/
def generate_chart_spec (_max_years : Int) : List Nat := [137, 80, 78, 71]

/-- `required_keys = ['years', crop_type_key, 'farm', 'reveg']` (line 131). -/
def required_keys : List String := ["years", crop_type_key, "farm", "reveg"]

/-- Message of the missing-keys `InvalidUsage` (lines 135–136):
`'POST body must have the keys: ' + str(required_keys)`. -/
def required_keys_msg : String :=
  "POST body must have the keys: ['years', 'crop_type', 'farm', 'reveg']"

/-- Message of the crop-type `InvalidUsage` (lines 140–141):
`'crop_type must be one of: ' + str(valid_crop_types)`. -/
def crop_type_err_msg : String :=
  "crop_type must be one of: ['apple', 'canola', 'lucerne']"

/-- The `for curr in required_keys: request_dict[curr]` loop of
`validate_request` (lines 130–136): the surrounding `try`/`except KeyError`
turns a `KeyError` on any key into the `InvalidUsage` listing all required
keys; other exceptions (e.g. `TypeError` on a non-dict body) pass through. -/
def check_required_keys (request_dict : Json) : List String → Except PyErr Unit
  | [] => .ok ()
  | k :: rest =>
    match request_dict.subscript k with
    | .ok _ => check_required_keys request_dict rest
    | .error (.keyError _) => .error (.invalidUsage required_keys_msg 400)
    | .error e => .error e

/-- Error of a `geojson.loads` call in the model.  `valueError` is Python's
`ValueError` (the message models the library's text with the `%r`/`%s`
interpolations elided); `typeError` and `keyError` are the corresponding
built-ins; `notModelled` marks payloads whose behaviour under the geojson
library is outside this model's fidelity: a factory dict binding the
`iterable`, `validate` or `precision` constructor parameters, or a
`"type": "Feature"` dict whose truthy `geometry` is not a JSON object (there
the library's `to_mapping` iteration raises input-dependent
`TypeError`/`ValueError`).  No theorem below concludes anything about
`notModelled` payloads. -/
inductive LoadErr where
  | valueError (message : String) : LoadErr
  | typeError : LoadErr
  | keyError (key : String) : LoadErr
  | notModelled : LoadErr
deriving DecidableEq, Repr

/-- Classification of a dict after the `geojson.loads` object hook: a plain
`dict`, a `Geometry` instance (carrying its class name, e.g. `"Polygon"`), or
another `GeoJSON` instance (`Feature`, `FeatureCollection`,
`GeometryCollection`, `GeoJSON`). -/
inductive GInst where
  | plain : GInst
  | geometry (name : String) : GInst
  | other : GInst
deriving DecidableEq, Repr

/-- A Python value as it exists after `geojson.loads`: JSON data in which each
dict node carries its `GInst` classification.  GeoJSON instances are dict
subclasses, so their mapping content is ordinary JSON data. -/
inductive GVal where
  | null : GVal
  | bool (b : Bool) : GVal
  | num (n : Int) : GVal
  | str (s : String) : GVal
  | arr (xs : List GVal) : GVal
  | obj (inst : GInst) (kvs : List (String × GVal)) : GVal

/-- Python truthiness of a (processed) JSON value. -/
def GVal.truthy : GVal → Bool
  | .null => false
  | .bool b => b
  | .num n => n != 0
  | .str s => !s.isEmpty
  | .arr xs => !xs.isEmpty
  | .obj _ kvs => !kvs.isEmpty

/-- The attributes of `geojson.factory` that name `Geometry` subclasses. -/
def geometry_factory_names : List String :=
  ["Point", "MultiPoint", "LineString", "MultiLineString", "Polygon",
   "MultiPolygon"]

/-- All attributes of `geojson/factory.py` (it also re-exports
`GeometryCollection`, `Feature`, `FeatureCollection` and `GeoJSON`). -/
def factory_names : List String :=
  geometry_factory_names ++
    ["GeometryCollection", "Feature", "FeatureCollection", "GeoJSON"]

/-- Model of the message of the `ValueError` raised by strict
`GeoJSON.to_instance` — "Cannot coerce %r into a valid GeoJSON structure: %s"
with the interpolations elided. -/
def cannot_coerce_msg : String := "Cannot coerce into a valid GeoJSON structure"

/-- Model of the message of the `ValueError` raised by
`Geometry.clean_coordinates` — "%r is not a JSON compliant number" with the
interpolation elided. -/
def not_number_msg : String := "is not a JSON compliant number"

mutual
/-- One element of a coordinate list in `Geometry.clean_coordinates`:
sub-lists recurse, `Geometry` instances contribute their `"coordinates"`,
numbers are kept — integers are unchanged by `round(·, 6)`, and Python
`bool` is an `int` subclass, so `True`/`False` round to `1`/`0` — and any
other value raises `ValueError`. -/
def clean_coord : GVal → Except LoadErr GVal
  | .arr ys =>
    match clean_coord_list ys with
    | .ok ys2 => .ok (.arr ys2)
    | .error e => .error e
  | .obj (.geometry _) kvs =>
    match kvs.lookup "coordinates" with
    | some c => .ok c
    | none => .error (.keyError "coordinates")
  | .num n => .ok (.num n)
  | .bool b => .ok (.num (if b then 1 else 0))
  | _ => .error (.valueError not_number_msg)

/-- The elements of a coordinate list, cleaned left to right
(`clean_coord` documents the cases). -/
def clean_coord_list : List GVal → Except LoadErr (List GVal)
  | [] => .ok []
  | x :: rest =>
    match clean_coord x with
    | .error e => .error e
    | .ok x2 =>
      match clean_coord_list rest with
      | .error e => .error e
      | .ok rest2 => .ok (x2 :: rest2)
end

/-- `cls.clean_coordinates(coordinates or [], precision)` for the `Geometry`
subclass named `name`: a falsy coordinates value becomes `[]`; a same-class
instance contributes its `"coordinates"`; a list is cleaned element-wise;
iterating any other truthy value yields non-numbers (characters of a string,
keys of a dict) and raises `ValueError` — except that iterating a number or
`True` raises `TypeError`. -/
def clean_coordinates (name : String) (coords : GVal) : Except LoadErr GVal :=
  if ¬coords.truthy then .ok (.arr [])
  else
    match coords with
    | .arr ys =>
      match clean_coord_list ys with
      | .ok ys2 => .ok (.arr ys2)
      | .error e => .error e
    | .obj (.geometry name2) kvs =>
      if name2 = name then
        match kvs.lookup "coordinates" with
        | some c => .ok c
        | none => .error (.keyError "coordinates")
      else .error (.valueError not_number_msg)
    | .num _ => .error .typeError
    | .bool _ => .error .typeError
    | _ => .error (.valueError not_number_msg)

/-- `GeoJSON.to_instance(ob, strict=True)` as invoked by `Feature.__init__`
on a truthy geometry: a value that is already a GeoJSON instance is kept; on
a plain dict the re-coercion's `KeyError` (missing `"type"`) or
`AttributeError` (type not a factory attribute) is re-raised as `ValueError`
because of `strict=True`.  A plain dict whose type names a factory cannot
occur here — the object hook has already coerced every such dict (or the
whole load has raised) — so that branch is out of the modelled region.  A
truthy non-dict is `notModelled` (see `LoadErr.notModelled`). -/
def to_instance_strict (ob : GVal) : Except LoadErr GVal :=
  match ob with
  | .obj (.geometry name) kvs => .ok (.obj (.geometry name) kvs)
  | .obj .other kvs => .ok (.obj .other kvs)
  | .obj .plain kvs =>
    match kvs.lookup "type" with
    | some (.str s) =>
      if factory_names.contains s then .error .notModelled
      else .error (.valueError cannot_coerce_msg)
    | some _ => .error (.valueError cannot_coerce_msg)
    | none => .error (.valueError cannot_coerce_msg)
  | _ => .error .notModelled

/-- The keys of `kvs` other than `"type"` and the constructor's named
parameters `params`, in order: the `**extra` keywords. -/
def extra_keys (params : List String) (kvs : List (String × GVal)) :
    List (String × GVal) :=
  kvs.filter fun kv => !(("type" :: params).contains kv.1)

/-- `geojson_factory(**d)` for the factory named `s` on the processed dict
content `kvs` (still including its `"type"` key, which `to_instance` pops).
Builds the instance's dict content in Python's insertion order:
`GeoJSON.__init__` writes `"type"` (reset to the class name, which equals
`s`) and then the `**extra` keys; the subclass appends its own keys —
`Geometry` its cleaned `"coordinates"`, `Feature` its `"id"` (only when not
`None`), coerced `"geometry"` (strictly re-coerced when truthy, else `None`)
and `"properties"` (`properties or {}`), `FeatureCollection` its required
`"features"` (a missing `features` key makes the constructor call raise
`TypeError`, which `to_instance` does not catch), `GeometryCollection` its
`"geometries"` (`geometries or []`).  A dict binding the `iterable`,
`validate` or `precision` parameters is outside the model. -/
def apply_factory (s : String) (kvs : List (String × GVal)) :
    Except LoadErr GVal :=
  if (kvs.lookup "iterable").isSome then .error .notModelled
  else if geometry_factory_names.contains s then
    if (kvs.lookup "validate").isSome ∨ (kvs.lookup "precision").isSome then
      .error .notModelled
    else
      match clean_coordinates s ((kvs.lookup "coordinates").getD .null) with
      | .error e => .error e
      | .ok cleaned =>
        .ok (.obj (.geometry s)
          ([("type", .str s)] ++
            extra_keys ["coordinates", "validate", "precision"] kvs ++
            [("coordinates", cleaned)]))
  else if s = "Feature" then
    match
      (let geom := (kvs.lookup "geometry").getD .null
       if geom.truthy then to_instance_strict geom else .ok .null) with
    | .error e => .error e
    | .ok geom2 =>
      let props := (kvs.lookup "properties").getD .null
      let props2 := if props.truthy then props else .obj .plain []
      let idPart : List (String × GVal) :=
        match kvs.lookup "id" with
        | some .null => []
        | some v => [("id", v)]
        | none => []
      .ok (.obj .other
        ([("type", .str "Feature")] ++
          extra_keys ["id", "geometry", "properties"] kvs ++
          idPart ++ [("geometry", geom2), ("properties", props2)]))
  else if s = "FeatureCollection" then
    match kvs.lookup "features" with
    | none => .error .typeError
    | some feats =>
      .ok (.obj .other
        ([("type", .str "FeatureCollection")] ++ extra_keys ["features"] kvs ++
          [("features", feats)]))
  else if s = "GeometryCollection" then
    let geoms := (kvs.lookup "geometries").getD .null
    let geoms2 := if geoms.truthy then geoms else .arr []
    .ok (.obj .other
      ([("type", .str "GeometryCollection")] ++ extra_keys ["geometries"] kvs ++
        [("geometries", geoms2)]))
  else
    .ok (.obj .other ([("type", .str "GeoJSON")] ++ extra_keys [] kvs))

mutual
/-- `json.loads(dumps(·), object_hook=GeoJSON.to_instance)`: every dict node,
bottom-up, goes through non-strict `to_instance` — a dict whose string
`"type"` names a factory attribute is replaced by that factory's instance
(whose construction may raise; a `KeyError` from the constructor falls back
to the plain dict, as `to_instance` catches `KeyError`/`AttributeError` when
not strict), and every other dict is left unchanged. -/
def geojson_hook : Json → Except LoadErr GVal
  | .null => .ok .null
  | .bool b => .ok (.bool b)
  | .num n => .ok (.num n)
  | .str s => .ok (.str s)
  | .arr xs =>
    match geojson_hook_list xs with
    | .ok xs2 => .ok (.arr xs2)
    | .error e => .error e
  | .obj kvs =>
    match geojson_hook_kvs kvs with
    | .error e => .error e
    | .ok kvs2 =>
      match kvs2.lookup "type" with
      | some (.str s) =>
        if factory_names.contains s then
          match apply_factory s kvs2 with
          | .error (.keyError _) => .ok (.obj .plain kvs2)
          | r => r
        else .ok (.obj .plain kvs2)
      | some _ => .ok (.obj .plain kvs2)
      | none => .ok (.obj .plain kvs2)

/-- The elements of a JSON array under the object hook, left to right. -/
def geojson_hook_list : List Json → Except LoadErr (List GVal)
  | [] => .ok []
  | x :: rest =>
    match geojson_hook x with
    | .error e => .error e
    | .ok x2 =>
      match geojson_hook_list rest with
      | .error e => .error e
      | .ok rest2 => .ok (x2 :: rest2)

/-- The values of a JSON object under the object hook, left to right. -/
def geojson_hook_kvs : List (String × Json) →
    Except LoadErr (List (String × GVal))
  | [] => .ok []
  | (k, v) :: rest =>
    match geojson_hook v with
    | .error e => .error e
    | .ok v2 =>
      match geojson_hook_kvs rest with
      | .error e => .error e
      | .ok rest2 => .ok ((k, v2) :: rest2)
end

mutual
/-- The plain JSON content of a processed value (instances are dict
subclasses; dropping the classification loses nothing `assert_geojson`
reads). -/
def GVal.toJson : GVal → Json
  | .null => .null
  | .bool b => .bool b
  | .num n => .num n
  | .str s => .str s
  | .arr xs => .arr (GVal.toJsonList xs)
  | .obj _ kvs => .obj (GVal.toJsonKVs kvs)

/-- `GVal.toJson` over a list. -/
def GVal.toJsonList : List GVal → List Json
  | [] => []
  | x :: rest => GVal.toJson x :: GVal.toJsonList rest

/-- `GVal.toJson` over the values of an object. -/
def GVal.toJsonKVs : List (String × GVal) → List (String × Json)
  | [] => []
  | (k, v) :: rest => (k, GVal.toJson v) :: GVal.toJsonKVs rest
end

/-- `geojson.loads(dumps(geojson_dict))`: the document under the object hook,
projected back to its JSON content. -/
def geojson_loads (j : Json) : Except LoadErr Json :=
  match geojson_hook j with
  | .ok v => .ok v.toJson
  | .error e => .error e

/-- `assert_geojson` (lines 159–175).  `g = geojson.loads(dumps(geojson_dict))`
is modelled by `geojson_loads`; its `ValueError` is the only `ValueError`
source inside the `try` (the later statements can raise only
`KeyError`/`AttributeError`/`TypeError`/`InvalidUsage`), so the
`except ValueError` clause wraps exactly the load errors into the
`'{key} is not valid geojson: {e}'` `InvalidUsage`; other load errors
propagate. -/
def assert_geojson (the_req : Json) (key : String) : Except PyErr Unit :=
  match the_req.subscript key with
  | .error e => .error e
  | .ok geojson_dict =>
    match geojson_loads geojson_dict with
    | .error (.valueError m) =>
      .error (.invalidUsage (key ++ (" is not valid geojson: " ++ m)) 400)
    | .error .typeError => .error .typeError
    | .error (.keyError k2) => .error (.keyError k2)
    | .error .notModelled => .error .notModelled
    | .ok g =>
    match g.subscript "type" with
    | .error e => .error e
    | .ok typeJ =>
      match asStr typeJ with
      | .error e => .error e
      | .ok typeStr =>
        if pyUpper typeStr ≠ "FEATURECOLLECTION" then
          .error (.invalidUsage (key ++ " vector is not a FeatureCollection") 400)
        else
          match g.subscript "features" with
          | .error e => .error e
          | .ok feats =>
            match feats.pyLen with
            | .error e => .error e
            | .ok numFeats =>
              if numFeats ≠ 1 then
                .error (.invalidUsage (key ++ " must have exactly 1 feature") 400)
              else
                match feats.index 0 with
                | .error e => .error e
                | .ok feat0 =>
                  match feat0.subscript "geometry" with
                  | .error e => .error e
                  | .ok geom =>
                    match geom.subscript "type" with
                    | .error e => .error e
                    | .ok geomTypeJ =>
                      match asStr geomTypeJ with
                      | .error e => .error e
                      | .ok geomTypeStr =>
                        if pyUpper geomTypeStr ≠ "POLYGON" then
                          .error (.invalidUsage (key ++ " feature is not a Polygon") 400)
                        else .ok ()

/-- `crop_type in valid_crop_types` for
`valid_crop_types = ['apple', 'canola', 'lucerne']` (lines 137–139). -/
def is_valid_crop_type : Json → Bool
  | .str "apple" => true
  | .str "canola" => true
  | .str "lucerne" => true
  | _ => false

/-- `validate_request` (lines 129–145), parameterized by `assert_json_schema`
(line 144): the JSON schema it checks lives in `schema.py`, which is not among
the sources under study.  (The `force_crop` parameter is unused in the source
and omitted.) -/
def validate_request (assert_json_schema : Json → Except PyErr Unit)
    (request_dict : Json) : Except PyErr Unit :=
  match check_required_keys request_dict required_keys with
  | .error e => .error e
  | .ok _ =>
    match request_dict.subscript crop_type_key with
    | .error e => .error e
    | .ok crop_type =>
      if is_valid_crop_type crop_type then
        match assert_geojson request_dict "farm" with
        | .error e => .error e
        | .ok _ =>
          match assert_geojson request_dict "reveg" with
          | .error e => .error e
          | .ok _ => assert_json_schema request_dict
      else .error (.invalidUsage crop_type_err_msg 400)

/-- Message of the years-bound `InvalidUsage` (line 276):
`f'years cannot be > {MAX_YEARS_TO_SIMULATE}'` with `MAX_YEARS_TO_SIMULATE = 30`. -/
def years_max_err_msg : String := "years cannot be > 30"

/-- Message of the varroa-year `InvalidUsage` (line 279). -/
def varroa_err_msg : String := "varroa_mite_year must be 0 < n < years"

/-- The numeric-bound checks at the head of `do_handle_request` (lines
272–279): `years_to_simulate = post_body['years']`; fail when
`years_to_simulate > MAX_YEARS_TO_SIMULATE`; then
`varroa_mite_year = post_body['varroa_mite_year']` — an absent key raises a
bare `KeyError` (only `socketio_sid` further down is read inside a
`try`/`except KeyError`); fail when
`not 0 < varroa_mite_year < years_to_simulate`.  Returns the validated
`(years_to_simulate, varroa_mite_year)` pair. -/
def do_handle_request_checks (post_body : Json) : Except PyErr (Int × Int) :=
  match post_body.subscript "years" with
  | .error e => .error e
  | .ok yearsJ =>
    match asInt yearsJ with
    | .error e => .error e
    | .ok years_to_simulate =>
      if years_to_simulate > MAX_YEARS_TO_SIMULATE then
        .error (.invalidUsage years_max_err_msg 400)
      else
        match post_body.subscript "varroa_mite_year" with
        | .error e => .error e
        | .ok varroaJ =>
          match asInt varroaJ with
          | .error e => .error e
          | .ok varroa_mite_year =>
            if ¬(0 < varroa_mite_year ∧ varroa_mite_year < years_to_simulate) then
              .error (.invalidUsage varroa_err_msg 400)
            else .ok (years_to_simulate, varroa_mite_year)

/-- The HTTP boundary: the `@app.errorhandler(InvalidUsage)` handler
`handle_invalid_usage` (lines 213–217) turns an `InvalidUsage` into the
structured envelope `{'message': ...}` with the error's status code (the
payload is `None` at every raise site in this file, so `to_dict()` reduces to
the message); a successful view function returns its JSON with status 200; any
other exception has no registered handler, so Flask produces an unstructured
500 response — modelled as `none`. -/
def appResponse (outcome : Except PyErr Json) : Option (Nat × Json) :=
  match outcome with
  | .ok v => some (200, v)
  | .error (.invalidUsage msg sc) => some (sc, .obj [("message", .str msg)])
  | .error _ => none

/-- A progress event as emitted on the socket channel: its event code and its
JSON payload. -/
structure Event where
  code : String
  msg : Json

/-- The event channel underlying `self.socketio.emit(code, msg,
room=socketio_sid)`: given the room, the event code and the payload, delivery
either succeeds or raises (modelled as `Except` carrying the raised error's
text). -/
abbrev Chan : Type := String → String → Json → Except String Unit

/-- `send_socket_msg` (lines 293–297): a no-op without a subscriber id;
otherwise it emits on the channel (appending the event to the trace of
delivered events) — any channel error propagates, there is no handler around
`emit`.  (`self.socketio.sleep(0)` only flushes and is a no-op here.) -/
def send_socket_msg (socketio_sid : Option String) (chan : Chan) (code : String)
    (msg : Json) (evs : List Event) : Except String (List Event) :=
  match socketio_sid with
  | none => .ok evs
  | some room =>
    match chan room code msg with
    | .ok _ => .ok (evs ++ [⟨code, msg⟩])
    | .error e => .error e

/-- Payload of `send_total_sim_count` (lines 299–300). -/
def sim_count_payload (count : Int) : Json := .obj [("count", .num count)]

/-- Payload of `mark_year_as_done` (lines 302–305). -/
def year_complete_payload : Json :=
  .obj [("msg", .str "completed another year in the simulation")]

/-- Modelled from the spec: the year loop of the external Model Runner (the
`model_runner` collaborator is not among the sources under study) — it invokes
the year-completion callback once per simulated year. -/
def run_years (yearDone : List Event → Except String (List Event)) :
    Nat → List Event → Except String (List Event)
  | 0, evs => .ok evs
  | n + 1, evs =>
    match yearDone evs with
    | .ok evs1 => run_years yearDone n evs1
    | .error e => .error e

/-- Modelled from the spec: the external Model Runner calls the total-count
callback once with the number of simulated years at the start of the run, then
the year-completion callback once per simulated year, and finally returns its
result — computed independently of the callbacks — unchanged. -/
def run_model (totalCount : Int → List Event → Except String (List Event))
    (yearDone : List Event → Except String (List Event)) (years : Nat)
    (result : Json) (evs : List Event) : Except String (List Event × Json) :=
  match totalCount (years : Int) evs with
  | .error e => .error e
  | .ok evs1 =>
    match run_years yearDone years evs1 with
    | .error e => .error e
    | .ok evs2 => .ok (evs2, result)

/-- The progress-notification behaviour of `do_handle_request` (lines
288–309): the closures `send_total_sim_count` and `mark_year_as_done` — built
over `send_socket_msg` with the request's `socketio_sid` — are handed to the
model runner (modelled from the spec by `run_model`); the event trace starts
empty.  Returns the final trace together with the JSON result. -/
def do_handle_request_events (socketio_sid : Option String) (chan : Chan)
    (years : Nat) (result : Json) : Except String (List Event × Json) :=
  run_model
    (fun count => send_socket_msg socketio_sid chan "sim-count" (sim_count_payload count))
    (send_socket_msg socketio_sid chan "year-complete" year_complete_payload)
    years result []

/-- The JSON body of the HTTP response produced from a run outcome: `none`
when the run raised (no normal response is produced). -/
def responseOf (r : Except String (List Event × Json)) : Option Json :=
  match r with
  | .ok p => some p.2
  | .error _ => none

/-- A progress event tagged with its origin: the `sim-count` event carries the
announced total, a `year-complete` event carries the simulated year it
reports.  The year is ghost data fixed by the spec's runner model — the wire
payload of the code does not include it. -/
inductive TEvent where
  | simCount (total : Int) : TEvent
  | yearComplete (year : Nat) : TEvent
deriving DecidableEq, Repr

/-- The event code a tagged event is emitted under. -/
def TEvent.code : TEvent → String
  | .simCount _ => "sim-count"
  | .yearComplete _ => "year-complete"

/-- The wire payload of a tagged event. -/
def TEvent.payload : TEvent → Json
  | .simCount n => sim_count_payload n
  | .yearComplete _ => year_complete_payload

/-- The wire form (code and payload) of a tagged event. -/
def TEvent.erase (e : TEvent) : Event := ⟨e.code, e.payload⟩

/-- `send_socket_msg`, recording tagged events: emits the event's code and
wire payload on the channel. -/
def send_tagged (socketio_sid : Option String) (chan : Chan) (e : TEvent)
    (evs : List TEvent) : Except String (List TEvent) :=
  match socketio_sid with
  | none => .ok evs
  | some room =>
    match chan room e.code e.payload with
    | .ok _ => .ok (evs ++ [e])
    | .error err => .error err

/-- Modelled from the spec: the runner's year loop, tagged — year `year` is
simulated first, then `year + 1`, and so on, `count` years in total, each
followed by its year-completion event. -/
def run_years_tagged (emit : TEvent → List TEvent → Except String (List TEvent)) :
    Nat → Nat → List TEvent → Except String (List TEvent)
  | _, 0, evs => .ok evs
  | year, count + 1, evs =>
    match emit (.yearComplete year) evs with
    | .ok evs1 => run_years_tagged emit (year + 1) count evs1
    | .error e => .error e

/-- Modelled from the spec: `run_model`, tagged — the total-count event first,
then the years `1, 2, …, years` in increasing order. -/
def run_model_tagged (emit : TEvent → List TEvent → Except String (List TEvent))
    (years : Nat) (result : Json) (evs : List TEvent) :
    Except String (List TEvent × Json) :=
  match emit (.simCount years) evs with
  | .error e => .error e
  | .ok evs1 =>
    match run_years_tagged emit 1 years evs1 with
    | .error e => .error e
    | .ok evs2 => .ok (evs2, result)

/-- `do_handle_request_events`, with the tagged runner model. -/
def do_handle_request_events_tagged (socketio_sid : Option String) (chan : Chan)
    (years : Nat) (result : Json) : Except String (List TEvent × Json) :=
  run_model_tagged (send_tagged socketio_sid chan) years result []

/-- The trace the spec expects of an `n`-year run: one `sim-count`, then the
years `1, …, n` completed in increasing order. -/
def specTrace (years : Nat) : List TEvent :=
  .simCount (years : Int) :: (List.range years).map (fun i => .yearComplete (i + 1))

/-- The simulated years reported by the `year-complete` events of a trace, in
emission order. -/
def yearsOf : List TEvent → List Nat
  | [] => []
  | .yearComplete y :: rest => y :: yearsOf rest
  | _ :: rest => yearsOf rest

/-- A request body with all four required keys and a valid crop type whose
`farm` value is a JSON object without a `'type'` key. -/
def body_missing_farm_type : Json :=
  .obj [("years", .num 1), ("crop_type", .str "apple"),
        ("farm", .obj [("foo", .num 1)]), ("reveg", .num 0)]

/-- A request body that reaches `do_handle_request` without a
`varroa_mite_year` key. -/
def body_missing_varroa : Json := .obj [("years", .num 1)]

/-- A single-polygon feature-collection payload (its feature carries no
`'type'` tag, so the object hook leaves it a plain dict — the code never
checks the feature's own type). -/
def polygon_fc_payload : Json :=
  .obj [("type", .str "FeatureCollection"),
        ("features", .arr [.obj [("geometry", .obj [("type", .str "Polygon")])]])]

/-- A feature-collection payload whose sole member is a `'type': 'Feature'`
dict carrying a geometry of type `"Pentagon"`: the strict geometry coercion
inside `Feature.__init__` raises `ValueError` on it during `geojson.loads`. -/
def pentagon_feature_payload : Json :=
  .obj [("type", .str "FeatureCollection"),
        ("features", .arr [.obj [("type", .str "Feature"),
          ("geometry", .obj [("type", .str "Pentagon"),
            ("coordinates", .arr [])])]])]

/-!  ## Theorems  -/

/-- `ceilDivInt` computes the rational ceiling. -/
theorem ceil_intCast_div_natCast (a : Int) (b : Nat) :
    (⌈(a : ℚ) / (b : ℚ)⌉ : ℤ) = ceilDivInt a b := by
  unfold ceilDivInt
  rw [← Rat.floor_intCast_div_natCast (-a) b]
  push_cast
  rw [neg_div, Int.floor_neg, neg_neg]

/-- C1 (amended): the runtime estimator computes
`seconds = max(15, 4 * ceil(years / (1 + cpuCount/10)))` — the per-year factor
4 multiplies the ceiling from outside rather than the numerator inside it —
and in particular for `years = 10` and `cpuCount = 4` it returns 32. -/
theorem C1_estimate_runtime_amended :
    (∀ (years : Int) (cpu_count : Nat),
      estimate_runtime_calc years cpu_count =
        max 15 (4 * ⌈(years : ℚ) / (1 + (cpu_count : ℚ) / 10)⌉)) ∧
    estimate_runtime_calc 10 4 = 32 := by
  refine ⟨fun years cpu_count => ?_, by decide⟩
  have harg : (years : ℚ) / (1 + (cpu_count : ℚ) / 10) =
      ((10 * years : ℤ) : ℚ) / ((10 + cpu_count : ℕ) : ℚ) := by
    push_cast
    rw [div_eq_div_iff (by positivity) (by positivity)]
    ring
  simp only [estimate_runtime_calc]
  rw [harg, ceil_intCast_div_natCast]
  exact max_comm _ _

/-- C1 fails on the code: at `years = 10`, `cpuCount = 4` the estimator
returns 32, not the 29 the claim states; the spec's formula
`max(15, ceil(4*years/(1+cpuCount/10)))` does give 29 there, so the spec's
formula and the code's computation differ at this input. -/
theorem C1_estimate_runtime_cex :
    estimate_runtime_calc 10 4 ≠ 29 ∧ estimate_runtime_spec_formula 10 4 = 29 := by
  refine ⟨by decide, ?_⟩
  norm_num [estimate_runtime_spec_formula]
  rw [show (⌈(200 : ℚ) / 7⌉ : ℤ) = 29 from by rw [Int.ceil_eq_iff]; norm_num]
  norm_num

/-- C10: `GET /estimate-runtime` raises its 400 `InvalidUsage` exactly when
the `years` parameter is absent, not parseable as an integer, or equal to `0`
(the falsy check treats `0` as missing); every other integer is accepted, and
every strictly negative `years` yields `{seconds: 15}` (the raw guess is then
at most 0, so the floor of 15 applies). -/
theorem C10_estimate_runtime_endpoint :
    (∀ cpu_count : Nat,
      estimate_runtime cpu_count none =
        .error (.invalidUsage estimate_runtime_err_msg 400)) ∧
    (∀ cpu_count : Nat,
      estimate_runtime cpu_count (some 0) =
        .error (.invalidUsage estimate_runtime_err_msg 400)) ∧
    (∀ (cpu_count : Nat) (years : Int), years ≠ 0 →
      estimate_runtime cpu_count (some years) =
        .ok (estimate_runtime_calc years cpu_count)) ∧
    (∀ (cpu_count : Nat) (years : Int), years < 0 →
      estimate_runtime cpu_count (some years) = .ok 15) := by
  refine ⟨fun _ => rfl, fun _ => rfl,
    fun c y hy => by simp [estimate_runtime, hy], ?_⟩
  intro c y hy
  have hz : ceilDivInt (10 * y) (10 + c) ≤ 0 := by
    have h0 : (0 : Int) ≤ (-(10 * y)) / ((10 + c : Nat) : Int) :=
      Int.ediv_nonneg (by linarith) (Int.natCast_nonneg _)
    unfold ceilDivInt
    linarith
  have hcalc : estimate_runtime_calc y c = 15 := by
    simp only [estimate_runtime_calc]
    omega
  have hne : y ≠ 0 := ne_of_lt hy
  simp [estimate_runtime, hne, hcalc]

/-- Witness for C10: `years = -7` on a 4-CPU machine is accepted and the
response is `{seconds: 15}`. -/
theorem C10_estimate_runtime_endpoint_witness :
    estimate_runtime 4 (some (-7)) = .ok 15 :=
  C10_estimate_runtime_endpoint.2.2.2 4 (-7) (by decide)

/-- C9: evaluated at the claim's inputs, `years = 51` gets the 400
`InvalidUsage`, and an omitted parameter defaults to 15 and returns the
(non-empty) chart bytes — but `years = -1`, which the claim (and the code's
own error message, `an integer >= 1`) says must get a 400, passes the guard
(`not years` is only true for `0`) and reaches `generate_chart` with a
negative year count. -/
theorem C9_reveg_curve_guard :
    reveg_curve_png generate_chart_spec (some 51) =
      .error (.invalidUsage reveg_curve_err_msg 400) ∧
    reveg_curve_png generate_chart_spec none = .ok (generate_chart_spec 15) ∧
    (generate_chart_spec 15).length ≠ 0 ∧
    reveg_curve_png generate_chart_spec (some (-1)) =
      .ok (generate_chart_spec (-1)) :=
  ⟨rfl, rfl, by decide, rfl⟩

/-- C3 fails on the code (code bug): a body with all four required keys and a
valid crop type whose `farm` value is a JSON object without a `'type'` key
makes `assert_geojson` raise `KeyError('type')` — only `ValueError` is caught
there — which is not an `InvalidUsage`, so the single registered error handler
does not fire and the failure surfaces unstructured (no envelope; Flask's
bare 500).  Likewise a body that reaches `do_handle_request` without a
`varroa_mite_year` key dies on a bare `KeyError`. -/
theorem C3_unstructured_errors :
    validate_request (fun _ => .ok ()) body_missing_farm_type =
      .error (.keyError "type") ∧
    appResponse (.error (.keyError "type")) = none ∧
    do_handle_request_checks body_missing_varroa =
      .error (.keyError "varroa_mite_year") ∧
    appResponse (.error (.keyError "varroa_mite_year")) = none :=
  ⟨rfl, rfl, rfl, rfl⟩

/-- If some required key is missing from the (dict) body, the required-keys
loop raises the missing-fields `InvalidUsage`. -/
theorem check_required_keys_missing (kvs : List (String × Json))
    (keys : List String) (h : ∃ k ∈ keys, kvs.lookup k = none) :
    check_required_keys (.obj kvs) keys =
      .error (.invalidUsage required_keys_msg 400) := by
  induction keys with
  | nil => simp at h
  | cons k rest ih =>
    cases hk : kvs.lookup k with
    | none => simp [check_required_keys, Json.subscript, hk]
    | some v =>
      rcases h with ⟨k', hk', hnone⟩
      rcases List.mem_cons.mp hk' with rfl | hmem
      · rw [hk] at hnone; cases hnone
      · simp only [check_required_keys, Json.subscript, hk]
        exact ih ⟨k', hmem, hnone⟩

/-- C5: if any of the four required keys (`years`, `crop_type`, `farm`,
`reveg`) is absent from the (JSON-object) request body, validation fails with
the missing-fields `InvalidUsage`, whose message enumerates all four required
keys — regardless of which key was missing, of any later check and of the JSON
schema. -/
theorem C5_missing_fields (assert_json_schema : Json → Except PyErr Unit)
    (kvs : List (String × Json))
    (h : ∃ k ∈ required_keys, kvs.lookup k = none) :
    validate_request assert_json_schema (.obj kvs) =
      .error (.invalidUsage required_keys_msg 400) ∧
    ∀ k ∈ required_keys, ∃ a b, required_keys_msg = a ++ k ++ b := by
  constructor
  · have hc := check_required_keys_missing kvs required_keys h
    simp [validate_request, hc]
  · intro k hk
    simp only [required_keys, crop_type_key, List.mem_cons,
      List.not_mem_nil, or_false] at hk
    rcases hk with rfl | rfl | rfl | rfl
    · exact ⟨"POST body must have the keys: ['",
        "', 'crop_type', 'farm', 'reveg']", rfl⟩
    · exact ⟨"POST body must have the keys: ['years', '",
        "', 'farm', 'reveg']", rfl⟩
    · exact ⟨"POST body must have the keys: ['years', 'crop_type', '",
        "', 'reveg']", rfl⟩
    · exact ⟨"POST body must have the keys: ['years', 'crop_type', 'farm', '",
        "']", rfl⟩

/-- Witness for C5: a body holding only `crop_type` is rejected with the
missing-fields error. -/
theorem C5_missing_fields_witness :
    validate_request (fun _ => .ok ()) (.obj [("crop_type", .str "apple")]) =
      .error (.invalidUsage required_keys_msg 400) :=
  (C5_missing_fields (fun _ => .ok ()) [("crop_type", .str "apple")]
    ⟨"years", by decide, rfl⟩).1

/-- C6: with numeric `years` and `varroa_mite_year` fields,
`do_handle_request` fails with the years-bound error exactly when
`years > MAX_YEARS_TO_SIMULATE` (= 30); only when `years ≤ 30` does it fail
with the varroa error, exactly when `¬(0 < varroa_mite_year < years)`; and
when both bounds are violated, the years error is the one reported. -/
theorem C6_bounds_order (kvs : List (String × Json)) (y v : Int)
    (hy : (Json.obj kvs).subscript "years" = .ok (.num y))
    (hv : (Json.obj kvs).subscript "varroa_mite_year" = .ok (.num v)) :
    (do_handle_request_checks (.obj kvs) =
        .error (.invalidUsage years_max_err_msg 400) ↔
      y > MAX_YEARS_TO_SIMULATE) ∧
    (y ≤ MAX_YEARS_TO_SIMULATE →
      (do_handle_request_checks (.obj kvs) =
          .error (.invalidUsage varroa_err_msg 400) ↔
        ¬(0 < v ∧ v < y))) ∧
    (y > MAX_YEARS_TO_SIMULATE → ¬(0 < v ∧ v < y) →
      do_handle_request_checks (.obj kvs) =
        .error (.invalidUsage years_max_err_msg 400)) := by
  have hmsg : varroa_err_msg ≠ years_max_err_msg := by decide
  have hmain : do_handle_request_checks (.obj kvs) =
      if y > MAX_YEARS_TO_SIMULATE then
        .error (.invalidUsage years_max_err_msg 400)
      else if ¬(0 < v ∧ v < y) then .error (.invalidUsage varroa_err_msg 400)
      else .ok (y, v) := by
    simp [do_handle_request_checks, hy, hv, asInt]
  by_cases h30 : y > MAX_YEARS_TO_SIMULATE
  · simp [hmain, h30]
  · by_cases hvar : 0 < v ∧ v < y
    · simp [hmain, h30, hvar]
    · simp [hmain, h30, hvar, hmsg]

/-- Witness for C6: a body violating both bounds (`years = 40`,
`varroa_mite_year = 0`) is rejected with the years-bound error. -/
theorem C6_bounds_order_witness :
    do_handle_request_checks
        (.obj [("years", .num 40), ("varroa_mite_year", .num 0)]) =
      .error (.invalidUsage years_max_err_msg 400) :=
  (C6_bounds_order [("years", .num 40), ("varroa_mite_year", .num 0)] 40 0
    rfl rfl).2.2 (by decide) (by decide)

/-- With no subscriber id the notifier is a no-op: the year loop leaves the
trace unchanged and succeeds, whatever the channel does. -/
theorem run_years_none (chan : Chan) (code : String) (msg : Json)
    (n : Nat) (evs : List Event) :
    run_years (send_socket_msg none chan code msg) n evs = .ok evs := by
  induction n generalizing evs with
  | zero => rfl
  | succ k ih => simpa [run_years, send_socket_msg] using ih evs

/-- With a subscriber and a channel that always delivers, the year loop
appends one event per year. -/
theorem run_years_ok (room : String) (chan : Chan) (code : String) (msg : Json)
    (hok : ∀ r c m, chan r c m = .ok ()) (n : Nat) (evs : List Event) :
    run_years (send_socket_msg (some room) chan code msg) n evs =
      .ok (evs ++ List.replicate n ⟨code, msg⟩) := by
  induction n generalizing evs with
  | zero => simp [run_years]
  | succ k ih =>
    simp only [run_years, send_socket_msg, hok]
    rw [ih]
    simp [List.replicate_succ]

/-- C2 fails on the code: `send_socket_msg` has no handler around
`socketio.emit`, so with a subscriber present a delivery error propagates out
of the notifier instead of being swallowed — here a `sim-count` notification
raises. -/
theorem C2_notify_swallow_cex :
    send_socket_msg (some "sid1") (fun _ _ _ => .error "disconnected")
      "sim-count" (sim_count_payload 3) [] = .error "disconnected" := rfl

/-- C2 (amended): with no subscriber id the notifier is a no-op and never
raises; with a subscriber present a channel delivery error propagates
unchanged out of the notifier, and only a successful delivery leaves the call
returning normally (with the event appended to the delivered trace). -/
theorem C2_notify_behaviour :
    (∀ (chan : Chan) (code : String) (msg : Json) (evs : List Event),
      send_socket_msg none chan code msg evs = .ok evs) ∧
    (∀ (room : String) (chan : Chan) (code : String) (msg : Json)
        (evs : List Event) (e : String), chan room code msg = .error e →
      send_socket_msg (some room) chan code msg evs = .error e) ∧
    (∀ (room : String) (chan : Chan) (code : String) (msg : Json)
        (evs : List Event), chan room code msg = .ok () →
      send_socket_msg (some room) chan code msg evs =
        .ok (evs ++ [⟨code, msg⟩])) := by
  refine ⟨fun _ _ _ _ => rfl,
    fun room chan code msg evs e he => ?_,
    fun room chan code msg evs he => ?_⟩
  · simp [send_socket_msg, he]
  · simp [send_socket_msg, he]

/-- Witness for C2 (amended): a failing delivery of a `year-complete`
notification propagates its error. -/
theorem C2_notify_behaviour_witness :
    send_socket_msg (some "sid2") (fun _ _ _ => .error "boom")
      "year-complete" year_complete_payload [] = .error "boom" :=
  C2_notify_behaviour.2.1 "sid2" (fun _ _ _ => .error "boom")
    "year-complete" year_complete_payload [] "boom" rfl

/-- C7 (amended): with no subscriber id, zero progress events are emitted and
the response is the runner's result, whatever the channel does; and whenever
the channel delivers successfully, the response with a subscriber present is
the same one.  (When delivery fails, a subscriber's presence aborts the
request — the unconditional claim fails, see the counterexample.) -/
theorem C7_no_subscriber (chan : Chan) (years : Nat) (result : Json) :
    do_handle_request_events none chan years result = .ok ([], result) ∧
    (∀ room : String, (∀ r c m, chan r c m = .ok ()) →
      responseOf (do_handle_request_events (some room) chan years result) =
        responseOf (do_handle_request_events none chan years result)) := by
  have hnone : do_handle_request_events none chan years result =
      .ok ([], result) := by
    simp [do_handle_request_events, run_model, send_socket_msg,
      run_years_none chan "year-complete" year_complete_payload years]
  refine ⟨hnone, fun room hok => ?_⟩
  simp [do_handle_request_events, run_model, send_socket_msg, hok,
    run_years_ok room chan "year-complete" year_complete_payload hok years,
    run_years_none chan "year-complete" year_complete_payload years,
    responseOf]

/-- Witness for C7 (amended): a 3-year run with no subscriber emits nothing
and returns the runner's result; with subscriber `sid1` on a delivering
channel the response is the same. -/
theorem C7_no_subscriber_witness :
    do_handle_request_events none (fun _ _ _ => .ok ()) 3 .null =
      .ok ([], .null) ∧
    responseOf (do_handle_request_events (some "sid1")
        (fun _ _ _ => .ok ()) 3 .null) =
      responseOf (do_handle_request_events none (fun _ _ _ => .ok ()) 3 .null) :=
  ⟨(C7_no_subscriber (fun _ _ _ => .ok ()) 3 .null).1,
    (C7_no_subscriber (fun _ _ _ => .ok ()) 3 .null).2 "sid1" (fun _ _ _ => rfl)⟩

/-- C7 as stated fails on the code: over a channel whose delivery raises, the
request without a subscriber succeeds (emitting nothing) while the same
request with a subscriber aborts — the two responses differ, so a
subscriber's presence can influence the result returned to the client. -/
theorem C7_no_subscriber_cex :
    responseOf (do_handle_request_events none
        (fun _ _ _ => .error "disconnected") 3 .null) = some .null ∧
    responseOf (do_handle_request_events (some "sid1")
        (fun _ _ _ => .error "disconnected") 3 .null) = none ∧
    responseOf (do_handle_request_events (some "sid1")
        (fun _ _ _ => .error "disconnected") 3 .null) ≠
      responseOf (do_handle_request_events none
        (fun _ _ _ => .error "disconnected") 3 .null) :=
  ⟨rfl, rfl, fun h => Option.noConfusion h⟩

/-- With a subscriber and a channel that always delivers, the tagged year loop
starting at `year` appends the year-complete events of
`year, year + 1, …, year + count - 1` in order. -/
theorem run_years_tagged_ok (room : String) (chan : Chan)
    (hok : ∀ r c m, chan r c m = .ok ()) (count year : Nat)
    (evs : List TEvent) :
    run_years_tagged (send_tagged (some room) chan) year count evs =
      .ok (evs ++ (List.range count).map (fun i => .yearComplete (year + i))) := by
  have hexp : ∀ (k year : Nat),
      (List.range (k + 1)).map (fun i => TEvent.yearComplete (year + i)) =
        .yearComplete year ::
          (List.range k).map (fun i => .yearComplete (year + 1 + i)) := by
    intro k year
    rw [List.range_succ_eq_map, List.map_cons, List.map_map]
    simp only [Nat.add_zero]
    congr 1
    apply List.map_congr_left
    intro i _
    simp only [Function.comp_apply]
    congr 1
    omega
  induction count generalizing year evs with
  | zero => simp [run_years_tagged]
  | succ k ih =>
    simp only [run_years_tagged, send_tagged, hok]
    rw [ih, hexp]
    simp

/-- C8: with a subscriber and a delivering channel, the emitted trace of an
`n`-year run is exactly one `sim-count` event (carrying `n`) followed by the
year-complete events of years `1, …, n` in increasing order — `specTrace n`.
Hence the `sim-count` event is strictly first (the head of the trace),
everything after it is a `year-complete`, the reported years are
non-decreasing, and for a 3-year simulation the trace is
`[sim-count 3, year 1, year 2, year 3]`. -/
theorem C8_event_ordering (room : String) (chan : Chan)
    (hok : ∀ r c m, chan r c m = .ok ()) :
    (∀ (years : Nat) (result : Json),
      do_handle_request_events_tagged (some room) chan years result =
        .ok (specTrace years, result)) ∧
    (∀ years : Nat,
      (specTrace years).head? = some (.simCount (years : Int))) ∧
    (∀ (years : Nat) (e : TEvent), e ∈ (specTrace years).tail →
      ∃ y, e = .yearComplete y) ∧
    (∀ years : Nat, List.Chain' (· ≤ ·) (yearsOf (specTrace years))) ∧
    specTrace 3 =
      [.simCount 3, .yearComplete 1, .yearComplete 2, .yearComplete 3] := by
  refine ⟨fun years result => ?_, fun years => rfl, fun years e he => ?_,
    fun years => ?_, rfl⟩
  · simp only [do_handle_request_events_tagged, run_model_tagged, send_tagged,
      hok]
    rw [run_years_tagged_ok room chan hok years 1]
    simp [specTrace, Nat.add_comm 1]
  · simp only [specTrace, List.tail_cons, List.mem_map] at he
    rcases he with ⟨i, _, rfl⟩
    exact ⟨i + 1, rfl⟩
  · have hy : ∀ l : List Nat, yearsOf (l.map TEvent.yearComplete) = l := by
      intro l
      induction l with
      | nil => rfl
      | cons a t ih => simp [yearsOf, ih]
    have h1 : yearsOf (specTrace years) =
        (List.range years).map (fun i => i + 1) := by
      have hmm : (List.range years).map (fun i => TEvent.yearComplete (i + 1)) =
          ((List.range years).map (fun i => i + 1)).map TEvent.yearComplete := by
        rw [List.map_map]
        rfl
      simp only [specTrace, yearsOf, hmm, hy]
    rw [h1]
    apply List.Pairwise.chain'
    rw [List.pairwise_map]
    exact (List.pairwise_lt_range years).imp (fun hab => by omega)

/-- Witness for C8: a 3-year run for subscriber `sid1` over a delivering
channel emits exactly `specTrace 3`. -/
theorem C8_event_ordering_witness :
    do_handle_request_events_tagged (some "sid1") (fun _ _ _ => .ok ()) 3 .null =
      .ok (specTrace 3, .null) :=
  (C8_event_ordering "sid1" (fun _ _ _ => .ok ()) (fun _ _ _ => rfl)).1 3 .null

/-- `Json.subscript` never raises an `InvalidUsage`. -/
theorem subscript_not_invalidUsage (j : Json) (k msg : String) (sc : Nat) :
    j.subscript k ≠ .error (.invalidUsage msg sc) := by
  unfold Json.subscript
  split
  · split <;> simp
  · simp

/-- `Json.pyLen` never raises an `InvalidUsage`. -/
theorem pyLen_not_invalidUsage (j : Json) (msg : String) (sc : Nat) :
    j.pyLen ≠ .error (.invalidUsage msg sc) := by
  unfold Json.pyLen
  split <;> simp

/-- `Json.index` never raises an `InvalidUsage`. -/
theorem index_not_invalidUsage (j : Json) (i : Nat) (msg : String) (sc : Nat) :
    j.index i ≠ .error (.invalidUsage msg sc) := by
  unfold Json.index
  split
  · split <;> simp
  · split <;> simp
  · simp
  · simp

/-- `asStr` never raises an `InvalidUsage`. -/
theorem asStr_not_invalidUsage (j : Json) (msg : String) (sc : Nat) :
    asStr j ≠ .error (.invalidUsage msg sc) := by
  unfold asStr
  split <;> simp

/-- Appending distinct suffixes to a common prefix gives distinct strings. -/
theorem string_append_right_ne (key : String) {a b : String}
    (hab : a.data ≠ b.data) : key ++ a ≠ key ++ b := by
  intro h
  apply hab
  have hd := congrArg String.data h
  rw [String.data_append, String.data_append] at hd
  exact List.append_cancel_left hd

/-- Every `InvalidUsage` raised by `assert_geojson` carries the supplied field
name as a prefix of its message. -/
theorem assert_geojson_msg_key_prefix (the_req : Json) (key msg : String)
    (sc : Nat)
    (h : assert_geojson the_req key = .error (.invalidUsage msg sc)) :
    ∃ b, msg = key ++ b := by
  unfold assert_geojson at h
  repeat' split at h
  all_goals simp_all [subscript_not_invalidUsage, pyLen_not_invalidUsage,
    index_not_invalidUsage, asStr_not_invalidUsage]
  all_goals exact ⟨_, h.1.symm⟩

/-- Behaviour of `assert_geojson` when the payload decodes successfully to a
document `g` with a string `'type'`: the residual computation after the
collection-type gate, spelled out. -/
theorem assert_geojson_char (the_req p g : Json) (key t : String)
    (hreq : the_req.subscript key = .ok p)
    (hload : geojson_loads p = .ok g)
    (ht : g.subscript "type" = .ok (.str t)) :
    assert_geojson the_req key =
      if pyUpper t ≠ "FEATURECOLLECTION" then
        .error (.invalidUsage (key ++ " vector is not a FeatureCollection") 400)
      else
        match g.subscript "features" with
        | .error e => .error e
        | .ok feats =>
          match feats.pyLen with
          | .error e => .error e
          | .ok n =>
            if n ≠ 1 then
              .error (.invalidUsage (key ++ " must have exactly 1 feature") 400)
            else
              match feats.index 0 with
              | .error e => .error e
              | .ok feat0 =>
                match feat0.subscript "geometry" with
                | .error e => .error e
                | .ok geom =>
                  match geom.subscript "type" with
                  | .error e => .error e
                  | .ok geomTypeJ =>
                    match asStr geomTypeJ with
                    | .error e => .error e
                    | .ok geomTypeStr =>
                      if pyUpper geomTypeStr ≠ "POLYGON" then
                        .error (.invalidUsage (key ++ " feature is not a Polygon") 400)
                      else .ok () := by
  simp only [assert_geojson, hreq, hload, ht, asStr]

/-- C4 (amended): for a geometry payload `p` reached through field `key` of
the request: when the geojson decode of `p` raises `ValueError` (the
library's strict coercion of a `'type': 'Feature'` member's geometry, or its
coordinate cleaning), the validator fails with the malformed-input
`InvalidUsage` `'‹key› is not valid geojson: …'`.  Otherwise, writing `g` for
the decoded document: when `g` carries a string `'type'`, it fails with the
wrong-collection-type error exactly when that type, compared
case-insensitively, is not `FeatureCollection`; when the collection type is
right and `g` carries a `'features'` array, it fails with the
wrong-feature-count error exactly when the array's length is not 1; when
moreover the array holds exactly one feature whose `'geometry'` object
carries a string `'type'`, it fails with the wrong-geometry-type error
exactly when that type, case-insensitively, is not `Polygon`, and succeeds
otherwise.  Every `InvalidUsage` it raises carries the supplied field name as
a prefix of its message.  (Payloads lacking the inspected keys, or whose
decode raises `KeyError`/`TypeError`, surface unstructured errors instead —
see the counterexample.) -/
theorem C4_assert_geojson_cases (the_req p : Json) (key : String)
    (hreq : the_req.subscript key = .ok p) :
    (∀ m : String, geojson_loads p = .error (.valueError m) →
      assert_geojson the_req key =
        .error (.invalidUsage (key ++ (" is not valid geojson: " ++ m)) 400)) ∧
    (∀ (g : Json) (t : String), geojson_loads p = .ok g →
      g.subscript "type" = .ok (.str t) →
      (assert_geojson the_req key =
          .error (.invalidUsage (key ++ " vector is not a FeatureCollection") 400) ↔
        pyUpper t ≠ "FEATURECOLLECTION")) ∧
    (∀ (g : Json) (t : String) (fs : List Json), geojson_loads p = .ok g →
      g.subscript "type" = .ok (.str t) → pyUpper t = "FEATURECOLLECTION" →
      g.subscript "features" = .ok (.arr fs) →
      (assert_geojson the_req key =
          .error (.invalidUsage (key ++ " must have exactly 1 feature") 400) ↔
        fs.length ≠ 1)) ∧
    (∀ (g f geom : Json) (t gt : String), geojson_loads p = .ok g →
      g.subscript "type" = .ok (.str t) → pyUpper t = "FEATURECOLLECTION" →
      g.subscript "features" = .ok (.arr [f]) →
      f.subscript "geometry" = .ok geom →
      geom.subscript "type" = .ok (.str gt) →
      ((assert_geojson the_req key =
          .error (.invalidUsage (key ++ " feature is not a Polygon") 400) ↔
        pyUpper gt ≠ "POLYGON") ∧
       (pyUpper gt = "POLYGON" → assert_geojson the_req key = .ok ()))) ∧
    (∀ (msg : String) (sc : Nat),
      assert_geojson the_req key = .error (.invalidUsage msg sc) →
      ∃ b, msg = key ++ b) := by
  have hne_count_fc : key ++ " must have exactly 1 feature" ≠
      key ++ " vector is not a FeatureCollection" :=
    string_append_right_ne key (by decide)
  have hne_poly_fc : key ++ " feature is not a Polygon" ≠
      key ++ " vector is not a FeatureCollection" :=
    string_append_right_ne key (by decide)
  have hne_poly_count : key ++ " feature is not a Polygon" ≠
      key ++ " must have exactly 1 feature" :=
    string_append_right_ne key (by decide)
  refine ⟨fun m hload => by simp only [assert_geojson, hreq, hload],
    ?_, ?_, ?_, fun msg sc h => assert_geojson_msg_key_prefix _ _ _ _ h⟩
  · intro g t hload ht
    have hchar := assert_geojson_char the_req p g key t hreq hload ht
    constructor
    · intro h hfc
      rw [hchar] at h
      simp only [hfc, ne_eq, not_true_eq_false, if_false] at h
      repeat' split at h
      all_goals simp_all [subscript_not_invalidUsage, pyLen_not_invalidUsage,
        index_not_invalidUsage, asStr_not_invalidUsage, hne_count_fc,
        hne_poly_fc]
    · intro hfc
      rw [hchar]
      simp [hfc]
  · intro g t fs hload ht hfc hfe
    have hchar := assert_geojson_char the_req p g key t hreq hload ht
    rw [hchar]
    simp only [hfc, ne_eq, not_true_eq_false, if_false, hfe, Json.pyLen]
    constructor
    · intro h
      by_contra hlen
      simp only [hlen, ne_eq, not_true_eq_false, if_false] at h
      repeat' split at h
      all_goals simp_all [subscript_not_invalidUsage, pyLen_not_invalidUsage,
        index_not_invalidUsage, asStr_not_invalidUsage, hne_poly_count]
    · intro hlen
      simp [hlen]
  · intro g f geom t gt hload ht hfc hfe hgeom hgt
    have hchar := assert_geojson_char the_req p g key t hreq hload ht
    rw [hchar]
    simp only [hfc, ne_eq, not_true_eq_false, if_false, hfe, Json.pyLen,
      List.length_singleton, Json.index, List.get?, hgeom, hgt, asStr]
    constructor
    · constructor
      · intro h
        by_contra hpoly
        simp [hpoly] at h
      · intro hpoly
        simp [hpoly]
    · intro hpoly
      simp [hpoly]

/-- C4 as stated fails on the code, twice over: a geometry payload without a
`'type'` key raises `KeyError('type')` — not the wrong-collection-type
`InvalidUsage` the claim requires for a payload whose collection type (here
absent) is not `FeatureCollection`; and a feature collection whose sole
`'type': 'Feature'` member carries a geometry of type `"Pentagon"` — not
`Polygon`, so the claim requires the wrong-geometry-type error — instead
fails during `geojson.loads` with the malformed-input
`'farm is not valid geojson: …'` envelope, a different message. -/
theorem C4_assert_geojson_cex :
    assert_geojson (.obj [("reveg", .obj [])]) "reveg" =
      .error (.keyError "type") ∧
    (Except.error (PyErr.keyError "type") : Except PyErr Unit) ≠
      .error (.invalidUsage ("reveg" ++ " vector is not a FeatureCollection") 400) ∧
    assert_geojson (.obj [("farm", pentagon_feature_payload)]) "farm" =
      .error (.invalidUsage
        ("farm" ++ (" is not valid geojson: " ++ cannot_coerce_msg)) 400) ∧
    ("farm" ++ (" is not valid geojson: " ++ cannot_coerce_msg)) ≠
      "farm" ++ " feature is not a Polygon" :=
  ⟨rfl, by simp, rfl, by decide⟩

/-- Witness for C4 (amended): the well-shaped single-polygon payload
`polygon_fc_payload` decodes successfully (its geometry becomes a `Polygon`
instance with cleaned coordinates) and passes `assert_geojson` for the `farm`
field. -/
theorem C4_assert_geojson_cases_witness :
    assert_geojson (.obj [("farm", polygon_fc_payload)]) "farm" = .ok () :=
  ((C4_assert_geojson_cases (.obj [("farm", polygon_fc_payload)])
      polygon_fc_payload "farm" rfl).2.2.2.1
    (.obj [("type", .str "FeatureCollection"),
      ("features", .arr [.obj [("geometry",
        .obj [("type", .str "Polygon"), ("coordinates", .arr [])])]])])
    (.obj [("geometry", .obj [("type", .str "Polygon"), ("coordinates", .arr [])])])
    (.obj [("type", .str "Polygon"), ("coordinates", .arr [])])
    "FeatureCollection" "Polygon"
    rfl rfl (by decide) rfl rfl rfl).2 (by decide)

/-- The tagged year loop erases, year by year, to the code-faithful one: on
the wire the two runner models agree for every channel behaviour. -/
theorem run_years_erase (room : String) (chan : Chan) (count year : Nat)
    (evs : List TEvent) :
    run_years (send_socket_msg (some room) chan "year-complete" year_complete_payload)
        count (evs.map TEvent.erase) =
      Except.map (List.map TEvent.erase)
        (run_years_tagged (send_tagged (some room) chan) year count evs) := by
  induction count generalizing year evs with
  | zero => simp [run_years, run_years_tagged, Except.map]
  | succ k ih =>
    simp only [run_years, run_years_tagged, send_socket_msg, send_tagged,
      TEvent.code, TEvent.payload]
    cases chan room "year-complete" year_complete_payload with
    | error e => simp [Except.map]
    | ok u =>
      cases u
      have hmap : (evs.map TEvent.erase) ++
          [⟨"year-complete", year_complete_payload⟩] =
            (evs ++ [TEvent.yearComplete year]).map TEvent.erase := by
        simp [TEvent.erase, TEvent.code, TEvent.payload]
      rw [hmap]
      exact ih (year + 1) (evs ++ [.yearComplete year])

/-- Dropping the ghost year tags of the tagged model yields exactly the
code-faithful `send_socket_msg` behaviour of `do_handle_request`, for every
subscriber id and channel behaviour: `specTrace` speaks about the wire. -/
theorem tagged_erases_to_events (socketio_sid : Option String) (chan : Chan)
    (years : Nat) (result : Json) :
    do_handle_request_events socketio_sid chan years result =
      Except.map (fun p => (p.1.map TEvent.erase, p.2))
        (do_handle_request_events_tagged socketio_sid chan years result) := by
  cases socketio_sid with
  | none =>
    have hts : ∀ (count year : Nat) (evs : List TEvent),
        run_years_tagged (send_tagged none chan) year count evs = .ok evs := by
      intro count
      induction count with
      | zero => intro year evs; rfl
      | succ k ih =>
        intro year evs
        simpa [run_years_tagged, send_tagged] using ih (year + 1) evs
    simp [do_handle_request_events, do_handle_request_events_tagged, run_model,
      run_model_tagged, send_socket_msg, send_tagged,
      run_years_none chan "year-complete" year_complete_payload years, hts,
      Except.map]
  | some room =>
    simp only [do_handle_request_events, do_handle_request_events_tagged,
      run_model, run_model_tagged, send_socket_msg, send_tagged, TEvent.code,
      TEvent.payload]
    cases chan room "sim-count" (sim_count_payload (years : Int)) with
    | error e => simp [Except.map]
    | ok u =>
      cases u
      have hstart : ([] : List Event) ++
          [⟨"sim-count", sim_count_payload (years : Int)⟩] =
            (([] : List TEvent) ++ [TEvent.simCount (years : Int)]).map TEvent.erase := by
        simp [TEvent.erase, TEvent.code, TEvent.payload]
      dsimp only
      rw [hstart, run_years_erase room chan years 1]
      cases run_years_tagged (send_tagged (some room) chan) 1 years
          ([] ++ [TEvent.simCount (years : Int)]) with
      | error e => simp [Except.map]
      | ok evs2 => simp [Except.map]
